import Mathlib

/-!
Verification of the order-lifecycle subsystem of a Binance futures trading
bot (`orders.py`, `ws_manager.py`, `config.py`).

Numbers are modelled as exact rationals (`ℚ`): every constant appearing in
the source (`0.001`, `0.5`, `1.5`, ...) has an exact decimal value, and
`binance.helpers.round_step_size` computes with `Decimal(str(x))`, i.e.
exact decimal arithmetic, so rational arithmetic is the faithful model.

The exchange client is modelled as an oracle (`Gateway`) giving the outcome
of each call site; calls wrapped in `OrderManager._retry` are indexed by
attempt number and collapsed to their net outcome through `retryRun`, the
same definition whose attempt/sleep behaviour is verified separately.
Effects are traced explicitly: the list of gateway calls made, the trade-log
records written, and the sleeps performed.
-/

/-- Model of `binance.helpers.round_step_size`: computes
`float(Decimal(str(q)) - Decimal(str(q)) % Decimal(str(s)))`, and `Decimal.__mod__` is the truncated-division remainder, so the result is
`s * trunc(q / s)` (for positive arguments, `q` floored to a multiple of `s`). -/
def ratTrunc (x : ℚ) : ℤ :=
  if 0 ≤ x then ⌊x⌋ else -⌊-x⌋

def roundStepSize (q s : ℚ) : ℚ :=
  s * (ratTrunc (q / s) : ℚ)

/-- Per-symbol quantity/price step (`SYMBOL_PRECISION` values in `orders.py`). -/
structure StepPrec where
  qty : ℚ
  price : ℚ
deriving DecidableEq, Repr

/-- Source constant `config.MARGIN_PER_TRADE = 200`. -/
def MARGIN_PER_TRADE : ℚ := 200

/-- Source constant `config.TP_MULTIPLIER = 1.5`. -/
def TP_MULTIPLIER : ℚ := 3/2

/-- Source constant `config.SL_MULTIPLIER = 1.0`. -/
def SL_MULTIPLIER : ℚ := 1

/-- Source constant `config.USE_MARKET_ENTRY = True`. -/
def USE_MARKET_ENTRY : Bool := true

/-- Source constant `config.USE_MARKET_TP = True`. -/
def USE_MARKET_TP : Bool := true

/-- Source constant `config.MIN_NOTIONAL = 5.0`. -/
def MIN_NOTIONAL : ℚ := 5

/-- Source constant `config.USE_TRAILING_STOP = True`. -/
def USE_TRAILING_STOP : Bool := true

/-- Source constant `config.TRAILING_ACTIVATION_MULTIPLIER = 1.0`. -/
def TRAILING_ACTIVATION_MULTIPLIER : ℚ := 1

/-- Source constant `config.TRAILING_CALLBACK = 0.5`. -/
def TRAILING_CALLBACK : ℚ := 1/2

/-- Source constant `config.BREAK_EVEN_ACTIVATION_MULTIPLIER = 0.5`. -/
def BREAK_EVEN_ACTIVATION_MULTIPLIER : ℚ := 1/2

/-- Source constant `config.LEVERAGE_MAP`. -/
def LEVERAGE_MAP : List (String × ℕ) :=
  [("BTCUSDT", 5), ("ETHUSDT", 5),
   ("NEARUSDT", 8), ("SANDUSDT", 8), ("RENDERUSDT", 8),
   ("SUIUSDT", 10), ("HBARUSDT", 10), ("LINKUSDT", 10),
   ("DOGEUSDT", 10), ("1000FLOKIUSDT", 10)]

/-- Source constant `orders.SYMBOL_PRECISION`. -/
def SYMBOL_PRECISION : List (String × StepPrec) :=
  [("BTCUSDT", ⟨1/1000, 1/10⟩),
   ("ETHUSDT", ⟨1/1000, 1/100⟩),
   ("NEARUSDT", ⟨1/10, 1/1000⟩),
   ("FLOKIUSDT", ⟨1000, 1/10000000⟩),
   ("1000FLOKIUSDT", ⟨1000, 1/10000000⟩),
   ("DOGEUSDT", ⟨1, 1/10000⟩),
   ("SANDUSDT", ⟨1, 1/10000⟩),
   ("LINKUSDT", ⟨1/10, 1/1000⟩),
   ("HBARUSDT", ⟨1, 1/10000⟩),
   ("SUIUSDT", ⟨1, 1/10000⟩),
   ("RENDERUSDT", ⟨1/10, 1/1000⟩)]

/-- The configuration constants consumed by `orders.py`, bundled so that
properties can be stated for arbitrary values; `defaultConfig` holds the
values of `config.py`. -/
structure Config where
  marginPerTrade : ℚ
  minNotional : ℚ
  slMult : ℚ
  tpMult : ℚ
  beActMult : ℚ
  trailActMult : ℚ
  trailCallback : ℚ
  useMarketEntry : Bool
  useMarketTp : Bool
  useTrailingStop : Bool
  leverageMap : List (String × ℕ)
  symbolPrecision : List (String × StepPrec)

/-- The configuration actually shipped in `config.py` / `orders.py`. -/
def defaultConfig : Config :=
  ⟨MARGIN_PER_TRADE, MIN_NOTIONAL, SL_MULTIPLIER, TP_MULTIPLIER,
   BREAK_EVEN_ACTIVATION_MULTIPLIER, TRAILING_ACTIVATION_MULTIPLIER,
   TRAILING_CALLBACK, USE_MARKET_ENTRY, USE_MARKET_TP, USE_TRAILING_STOP,
   LEVERAGE_MAP, SYMBOL_PRECISION⟩

/-- Lookup `SYMBOL_PRECISION.get(symbol, ...)` with the default fallback of orders.py line 105. -/
def lookupPrec (prec : List (String × StepPrec)) (symbol : String) : StepPrec :=
  (prec.lookup symbol).getD ⟨1/1000, 1/100⟩

/-- Model of `OrderManager._retry` (orders.py lines 73-83), determinised: the wrapped
operation is a function from the attempt index (0-based) to its outcome.
`rem` is the number of attempts remaining after the current one
(`rem = retries - 1 - attempt`), so `rem = 0` means `attempt == retries - 1`
and the error is re-raised.  Returns (outcome, number of invocations,
sleeps performed between attempts, in order). -/
def retryLoop {α : Type} (op : ℕ → Except String α) :
    ℕ → ℕ → ℚ → Except String α × ℕ × List ℚ
  | attempt, rem, delay =>
    match op attempt, rem with
    | .ok a, _ => (.ok a, 1, [])
    | .error e, 0 => (.error e, 1, [])
    | .error _, rem' + 1 =>
      let r := retryLoop op (attempt + 1) rem' (delay * 2)
      (r.1, r.2.1 + 1, delay :: r.2.2)

/-- Run of `_retry` with its default arguments `retries=3, delay=1.0`. -/
def retryRun {α : Type} (op : ℕ → Except String α) :
    Except String α × ℕ × List ℚ :=
  retryLoop op 0 2 1

/-- The net outcome of a `_retry`-wrapped call (value returned or last error
re-raised); attempt counts and sleeps are the subject of the `retryRun`
theorems. -/
def retryNet {α : Type} (op : ℕ → Except String α) : Except String α :=
  (retryRun op).1

/-- A request passed to `client.futures_create_order`; absent keyword
arguments are `none` / `false`. -/
structure OrderReq where
  symbol : String
  side : String
  otype : String
  quantity : Option ℚ
  price : Option ℚ
  stopPrice : Option ℚ
  activationPrice : Option ℚ
  callbackRate : Option ℚ
  reduceOnly : Bool
  closePosition : Bool
  timeInForce : Option String
deriving DecidableEq, Repr

/-- One call made to the exchange client (the Gateway of spec section 6). -/
inductive GCall where
  | positionInfo (symbol : String)
  | changeLeverage (symbol : String) (leverage : ℕ)
  | createOrder (req : OrderReq)
  | getOrder (symbol : String) (orderId : ℕ)
  | cancelOrder (symbol : String) (orderId : ℕ)
deriving DecidableEq, Repr

/-- One row appended by `reporter.log_trade(sheet, symbol, side, qty, entry, tp, sl, status)`. -/
structure LogEntry where
  symbol : String
  side : String
  qty : ℚ
  price : ℚ
  tp : ℚ
  sl : ℚ
  status : String
deriving DecidableEq, Repr

/-- The quantity and the rounded/buffered prices computed by `place_trade`
before the try block (orders.py lines 94-131). -/
structure TradeParams where
  qty : ℚ
  price : ℚ
  sl : ℚ
  tp : ℚ
deriving DecidableEq, Repr

/-- orders.py lines 94-131: the minimum-notional guard, raw SL/TP from the
ATR multipliers, per-symbol step rounding, the 0.1% separation buffer and
the wrong-side validity check.  `none` models the early `return False`
paths; exceptions cannot arise here apart from `ZeroDivisionError` and the
`LEVERAGE_MAP` lookup, which the caller `placeTrade` handles. -/
def validateParams (cfg : Config) (lev : ℕ) (symbol side : String)
    (price atr : ℚ) : Option TradeParams :=
  let notional := cfg.marginPerTrade * (lev : ℚ)
  let qty := notional / price
  if qty * price < cfg.minNotional then none
  else
    let sl := if side = "BUY" then price - cfg.slMult * atr else price + cfg.slMult * atr
    let tp := if side = "BUY" then price + cfg.tpMult * atr else price - cfg.tpMult * atr
    let prec := lookupPrec cfg.symbolPrecision symbol
    let qty := roundStepSize qty prec.qty
    let price := roundStepSize price prec.price
    let sl := roundStepSize sl prec.price
    let tp := roundStepSize tp prec.price
    let priceBuffer := 1/1000 * price
    if side = "BUY" then
      let sl := min sl (price - priceBuffer)
      let tp := max tp (price + priceBuffer)
      if sl ≥ price ∨ tp ≤ price then none
      else some ⟨qty, price, sl, tp⟩
    else
      let sl := max sl (price + priceBuffer)
      let tp := min tp (price - priceBuffer)
      if sl ≤ price ∨ tp ≥ price then none
      else some ⟨qty, price, sl, tp⟩

/-- Computes `"SELL" if side == "BUY" else "BUY"` (orders.py line 137). -/
def oppositeSide (side : String) : String :=
  if side = "BUY" then "SELL" else "BUY"

/-- The entry order request (orders.py lines 152-160). -/
def entryReq (cfg : Config) (symbol side : String) (P : TradeParams) : OrderReq :=
  ⟨symbol, side, if cfg.useMarketEntry then "MARKET" else "LIMIT",
   some P.qty,
   if cfg.useMarketEntry then none else some P.price,
   none, none, none, false, false,
   if cfg.useMarketEntry then none else some "GTC"⟩

/-- The take-profit order request (orders.py lines 174-200). -/
def tpReq (cfg : Config) (symbol oppSide : String) (P : TradeParams) : OrderReq :=
  if cfg.useMarketTp then
    ⟨symbol, oppSide, "TAKE_PROFIT_MARKET", none, none, some P.tp, none, none,
     true, true, none⟩
  else
    ⟨symbol, oppSide, "LIMIT", some P.qty, some P.tp, none, none, none,
     true, false, some "GTC"⟩

/-- The stop-loss order request (orders.py lines 208-217). -/
def slReq (symbol oppSide : String) (P : TradeParams) : OrderReq :=
  ⟨symbol, oppSide, "STOP_MARKET", none, none, some P.sl, none, none,
   true, true, some "GTC"⟩

/-- Outcomes of the exchange-client calls made by one `place_trade` run.
Calls wrapped in `_retry` are attempt-indexed; `futures_get_order` is
indexed by the poll number of the fill-confirmation loop. -/
structure Gateway where
  positionInfo : Except String (Option (List ℚ))
  changeLeverage : ℕ → Except String Unit
  createEntry : ℕ → Except String ℕ
  getOrder : ℕ → Except String (Option String)
  createTp : ℕ → Except String ℕ
  createSl : ℕ → Except String ℕ
  registerRaises : Bool
  logTrade : ℕ → Except String Unit

/-- Observable effects accumulated during a `place_trade` run. -/
structure PState where
  calls : List GCall
  logs : List LogEntry
  sleeps : List ℚ
  logIdx : ℕ
  monitorStarted : Bool
  registered : Bool
deriving DecidableEq, Repr

def initPState : PState := ⟨[], [], [], 0, false, false⟩

/-- Effectful computation: state passing plus Python exceptions. -/
def PM (α : Type) : Type := PState → Except String α × PState

def PM.pure {α : Type} (a : α) : PM α := fun s => (.ok a, s)

def PM.bind {α β : Type} (m : PM α) (f : α → PM β) : PM β := fun s =>
  match m s with
  | (.ok a, s') => f a s'
  | (.error e, s') => (.error e, s')

/-- Python `try ... except ...`: an exception from the body runs the handler (an
exception from the handler itself propagates, as in Python). -/
def PM.tryCatchP {α : Type} (m : PM α) (h : String → PM α) : PM α := fun s =>
  match m s with
  | (.ok a, s') => (.ok a, s')
  | (.error e, s') => h e s'

/-- Record a client call and return its outcome (raising on error). -/
def PM.gwCall {α : Type} (c : GCall) (r : Except String α) : PM α := fun s =>
  (r, { s with calls := s.calls ++ [c] })

def PM.sleep (d : ℚ) : PM Unit := fun s =>
  (.ok (), { s with sleeps := s.sleeps ++ [d] })

/-- Model of `reporter.log_trade`: appends a row to the spreadsheet; the call itself
may raise.  Call outcomes are drawn from `gw.logTrade`, indexed by how many
log calls were attempted so far. -/
def PM.attemptLog (gw : Gateway) (entry : LogEntry) : PM Unit := fun s =>
  match gw.logTrade s.logIdx with
  | .ok _ => (.ok (), { s with logIdx := s.logIdx + 1, logs := s.logs ++ [entry] })
  | .error e => (.error e, { s with logIdx := s.logIdx + 1 })

/-- Call of `ws_manager.register_tp_order` guarded by `if self.ws_manager:` with its
exception swallowed (orders.py lines 202-206). -/
def PM.registerStep (hasWs raises : Bool) : PM Unit := fun s =>
  (.ok (), if hasWs && !raises then { s with registered := true } else s)

/-- Step `asyncio.create_task(monitor_and_switch_to_trailing(...))` guarded by
`USE_TRAILING_STOP` (orders.py lines 221-231). -/
def PM.monitorStep (enabled : Bool) : PM Unit := fun s =>
  (.ok (), if enabled then { s with monitorStarted := true } else s)

/-- Check `isinstance(pos, list)` and the scan for a non-zero `positionAmt`
(orders.py lines 142-149): `none` models a non-list response. -/
def hasOpenPosition (pos : Option (List ℚ)) : Bool :=
  match pos with
  | some amts => amts.any fun a => a != 0
  | none => false

/-- The fill-confirmation loop (orders.py lines 163-169): up to 5
`futures_get_order` polls; a non-dict response (`none`) or status `FILLED`
counts as filled, otherwise sleep 1 second and poll again. -/
def pollFill (gw : Gateway) (symbol : String) (oid : ℕ) : ℕ → ℕ → PM Bool
  | _, 0 => PM.pure false
  | idx, fuel + 1 =>
    PM.bind (PM.gwCall (GCall.getOrder symbol oid) (gw.getOrder idx)) fun info =>
    match info with
    | none => PM.pure true
    | some st =>
      if st = "FILLED" then PM.pure true
      else PM.bind (PM.sleep 1) fun _ => pollFill gw symbol oid (idx + 1) fuel

/-- The body of the `try` block of `place_trade` (orders.py lines 139-236). -/
def tryBody (cfg : Config) (gw : Gateway) (hasSheet hasWs : Bool)
    (symbol side : String) (lev : ℕ) (P : TradeParams) : PM Bool :=
  PM.bind (PM.gwCall (GCall.positionInfo symbol) gw.positionInfo) fun pos =>
  if hasOpenPosition pos then PM.pure false
  else
    PM.bind (PM.gwCall (GCall.changeLeverage symbol lev) (retryNet gw.changeLeverage)) fun _ =>
    PM.bind (PM.gwCall (GCall.createOrder (entryReq cfg symbol side P))
      (retryNet gw.createEntry)) fun entryId =>
    PM.bind (pollFill gw symbol entryId 0 5) fun filled =>
    if filled = false then PM.pure false
    else
      PM.bind (PM.gwCall (GCall.createOrder (tpReq cfg symbol (oppositeSide side) P))
        (retryNet gw.createTp)) fun _ =>
      PM.bind (PM.registerStep hasWs gw.registerRaises) fun _ =>
      PM.bind (PM.gwCall (GCall.createOrder (slReq symbol (oppositeSide side) P))
        (retryNet gw.createSl)) fun _ =>
      PM.bind (PM.monitorStep cfg.useTrailingStop) fun _ =>
      PM.bind (if hasSheet then
          PM.attemptLog gw ⟨symbol, side, P.qty, P.price, P.tp, P.sl, "FILLED"⟩
        else PM.pure ()) fun _ =>
      PM.pure true

/-- The `except` handler of `place_trade` (orders.py lines 237-241): log the
failure to the trade log (that write itself may raise) and return `False`. -/
def handleFail (gw : Gateway) (hasSheet : Bool) (symbol side : String)
    (P : TradeParams) (e : String) : PM Bool :=
  PM.bind (if hasSheet then
      PM.attemptLog gw ⟨symbol, side, P.qty, P.price, P.tp, P.sl, "ERROR: " ++ e⟩
    else PM.pure ()) fun _ =>
  PM.pure false

deriving instance DecidableEq for Except

/-- The result of one `place_trade` call: the value returned to the caller
(`.error` = an uncaught exception propagated) plus the observable effects. -/
structure TradeOutcome where
  result : Except String Bool
  calls : List GCall
  logs : List LogEntry
  sleeps : List ℚ
  monitorStarted : Bool
  registered : Bool
deriving DecidableEq, Repr

/-- Model of `OrderManager.place_trade` (orders.py lines 85-241).  The leverage
lookup (line 93, `KeyError` for an unknown symbol) and the quantity division
(line 95, `ZeroDivisionError` for price 0) happen before the `try` block, so
their exceptions propagate raw. -/
def placeTrade (cfg : Config) (gw : Gateway) (hasSheet hasWs : Bool)
    (symbol side : String) (price atr : ℚ) : TradeOutcome :=
  match cfg.leverageMap.lookup symbol with
  | none => ⟨.error "KeyError", [], [], [], false, false⟩
  | some lev =>
    if price = 0 then ⟨.error "ZeroDivisionError", [], [], [], false, false⟩
    else
      match validateParams cfg lev symbol side price atr with
      | none => ⟨.ok false, [], [], [], false, false⟩
      | some P =>
        let r := PM.tryCatchP (tryBody cfg gw hasSheet hasWs symbol side lev P)
          (handleFail gw hasSheet symbol side P) initPState
        ⟨r.1, r.2.calls, r.2.logs, r.2.sleeps, r.2.monitorStarted, r.2.registered⟩

/-- Outcomes of the exchange calls made by one
`monitor_and_switch_to_trailing` task, indexed by how many calls of that
kind were made before. -/
structure MonGateway where
  cancel : ℕ → Except String Unit
  create : ℕ → Except String ℕ

/-- The loop state of `monitor_and_switch_to_trailing`: the current
stop-loss order id and the `break_even_set` flag, plus the call indices into
the oracle. -/
structure MonState where
  slOrderId : ℕ
  breakEvenSet : Bool
  cancelIdx : ℕ
  createIdx : ℕ
deriving DecidableEq, Repr

/-- Observable actions of one monitor iteration. -/
inductive MonAction where
  | poll (mark : ℚ)
  | fetchErr
  | cancelOrder (orderId : ℕ)
  | cancelFailed (orderId : ℕ)
  | placeStop (side : String) (stopPrice : ℚ) (newId : ℕ)
  | placeStopFailed (side : String) (stopPrice : ℚ)
  | placeTrailing (side : String) (activationPrice : ℚ) (callbackRate : ℚ)
  | placeTrailingFailed (side : String) (activationPrice : ℚ)
deriving DecidableEq, Repr

/-- Whether an action is the placement of a trailing-stop order. -/
def MonAction.isTrailingPlacement : MonAction → Bool
  | .placeTrailing _ _ _ => true
  | _ => false

/-- The `while True` loop of `monitor_and_switch_to_trailing`
(orders.py lines 273-349), one price poll per iteration; the mark-price
sequence is finite and the run reports whether the task terminated (`break`)
before exhausting it.  A failed price fetch logs and retries (consumes the
poll); the break-even branch ends with `continue`, so the trailing check is
never reached on the same poll. -/
def monitorLoop (gw : MonGateway) (long : Bool)
    (beAct trailAct entryPrice cbRate : ℚ) (tSide : String) :
    List (Except String ℚ) → MonState → List MonAction × Bool
  | [], _ => ([], false)
  | p :: rest, st =>
    match p with
    | .error _ =>
      let r := monitorLoop gw long beAct trailAct entryPrice cbRate tSide rest st
      (MonAction.fetchErr :: r.1, r.2)
    | .ok mark =>
      if st.breakEvenSet = false ∧
          ((long = true ∧ beAct ≤ mark) ∨ (long = false ∧ mark ≤ beAct)) then
        match gw.cancel st.cancelIdx with
        | .error _ =>
          ([.poll mark, .cancelOrder st.slOrderId, .cancelFailed st.slOrderId], true)
        | .ok _ =>
          match gw.create st.createIdx with
          | .error _ =>
            ([.poll mark, .cancelOrder st.slOrderId, .placeStopFailed tSide entryPrice], true)
          | .ok newId =>
            let r := monitorLoop gw long beAct trailAct entryPrice cbRate tSide rest
              ⟨newId, true, st.cancelIdx + 1, st.createIdx + 1⟩
            (.poll mark :: .cancelOrder st.slOrderId ::
              .placeStop tSide entryPrice newId :: r.1, r.2)
      else if (long = true ∧ trailAct ≤ mark) ∨ (long = false ∧ mark ≤ trailAct) then
        match gw.cancel st.cancelIdx with
        | .error _ =>
          ([.poll mark, .cancelOrder st.slOrderId, .cancelFailed st.slOrderId], true)
        | .ok _ =>
          match gw.create st.createIdx with
          | .error _ =>
            ([.poll mark, .cancelOrder st.slOrderId, .placeTrailingFailed tSide trailAct], true)
          | .ok _ =>
            ([.poll mark, .cancelOrder st.slOrderId, .placeTrailing tSide trailAct cbRate], true)
      else
        let r := monitorLoop gw long beAct trailAct entryPrice cbRate tSide rest st
        (.poll mark :: r.1, r.2)

/-- Model of `monitor_and_switch_to_trailing` (orders.py lines 244-349): compute the
direction, the break-even and trailing activation thresholds, then run the
polling loop starting in the ARMED state (`break_even_set = False`). -/
def monitorRun (cfg : Config) (gw : MonGateway) (entryPrice atr : ℚ)
    (slOrderId : ℕ) (side : String) (prices : List (Except String ℚ)) :
    List MonAction × Bool :=
  let long := side = "BUY"
  let beAct := if long then entryPrice + atr * cfg.beActMult
    else entryPrice - atr * cfg.beActMult
  let trailAct := if long then entryPrice + atr * cfg.trailActMult
    else entryPrice - atr * cfg.trailActMult
  let tSide := if long then "SELL" else "BUY"
  monitorLoop gw long beAct trailAct entryPrice cfg.trailCallback tSide prices
    ⟨slOrderId, false, 0, 0⟩

/-- An order-update event as consumed by `BinanceWSManager._handle_event`:
`data["e"]`, `data["o"]["s"]`, `data["o"]["o"]`, `data["o"]["X"]`. -/
structure WSEvent where
  eventType : String
  symbol : String
  orderType : String
  status : String
deriving DecidableEq, Repr

/-- Model of `BinanceWSManager.register_tp_order` (ws_manager.py lines 49-50):
dictionary assignment `self.tp_orders[symbol] = order_id`. -/
def registerTpOrder (tpOrders : List (String × ℕ)) (symbol : String)
    (orderId : ℕ) : List (String × ℕ) :=
  (symbol, orderId) :: tpOrders.filter fun p => p.1 ≠ symbol

/-- Model of `BinanceWSManager._handle_event` (ws_manager.py lines 29-47).  Returns
the new registry and the cancel calls made (symbol, order id).  A raising
cancel call is caught (`except` logs) and the `finally` deletes the registry
entry regardless, so `cancelRaises` influences neither component. -/
def handleEvent (tpOrders : List (String × ℕ)) (ev : WSEvent)
    (cancelRaises : Bool) : List (String × ℕ) × List (String × ℕ) :=
  if ev.eventType ≠ "ORDER_TRADE_UPDATE" then (tpOrders, [])
  else if ev.orderType = "TRAILING_STOP_MARKET" ∧ ev.status = "FILLED" then
    match tpOrders.lookup ev.symbol with
    | some tpId => (tpOrders.filter fun p => p.1 ≠ ev.symbol, [(ev.symbol, tpId)])
    | none => (tpOrders, [])
  else (tpOrders, [])

/-- A benign gateway: every call succeeds. -/
def gwBenign : Gateway :=
  ⟨.ok (some []), fun _ => .ok (), fun _ => .ok 1, fun _ => .ok none,
   fun _ => .ok 2, fun _ => .ok 3, false, fun _ => .ok ()⟩

/-- A benign monitor gateway: cancels succeed, creations return ids 500, 501, ... -/
def mgwBenign : MonGateway :=
  ⟨fun _ => .ok (), fun i => .ok (500 + i)⟩

/-- The reconciler event of claim C5. -/
def evTrailingFill : WSEvent :=
  ⟨"ORDER_TRADE_UPDATE", "BTCUSDT", "TRAILING_STOP_MARKET", "FILLED"⟩

/-- A configuration identical to the shipped one except for a tiny margin,
used to exercise the minimum-notional guard (unreachable under the shipped
margin of 200 and leverages of at least 5). -/
def cfgTinyMargin : Config := { defaultConfig with marginPerTrade := 1/1000 }

/-- A gateway reporting an existing short position of 3 units. -/
def gwOpenPos : Gateway := { gwBenign with positionInfo := .ok (some [3]) }

/-- A gateway whose entry order never reports FILLED. -/
def gwUnfilled : Gateway :=
  ⟨.ok (some []), fun _ => .ok (), fun _ => .ok 9, fun _ => .ok (some "NEW"),
   fun _ => .ok 2, fun _ => .ok 3, false, fun _ => .ok ()⟩

/-- A gateway whose first trade-log write (the success-path one) raises and
whose second (the error handler's) succeeds; all exchange calls succeed and
the entry order is reported filled immediately (non-dict response). -/
def gwLogFail : Gateway :=
  ⟨.ok (some []), fun _ => .ok (), fun _ => .ok 9, fun _ => .ok none,
   fun _ => .ok 2, fun _ => .ok 3, false,
   fun n => if n = 0 then .error "logfail" else .ok ()⟩

/-- Claim C4: for every operation and every N with 0 ≤ N < 3, if the
operation raises on its first N invocations and succeeds on invocation N+1,
`_retry` returns the success value after exactly N+1 invocations, sleeping
2^(k-1) seconds before retry k (strictly increasing delays); if all 3
invocations raise, the last error is re-raised after exactly 3 invocations. -/
theorem c4_retry_backoff :
    (∀ (α : Type) (op : ℕ → Except String α) (N : ℕ) (a : α),
      N < 3 → (∀ k, k < N → ∃ e, op k = .error e) → op N = .ok a →
      retryRun op = (.ok a, N + 1, (List.range N).map fun k => (2:ℚ)^k) ∧
      ((List.range N).map fun k => (2:ℚ)^k).Chain' (· < ·)) ∧
    (∀ (α : Type) (op : ℕ → Except String α) (e0 e1 e2 : String),
      op 0 = .error e0 → op 1 = .error e1 → op 2 = .error e2 →
      retryRun op = (.error e2, 3, [1, 2])) := by
  constructor
  · intro α op N a hN hfail hsucc
    interval_cases N
    · simp [retryRun, retryLoop, hsucc]
    · obtain ⟨e0, he0⟩ := hfail 0 (by norm_num)
      have hl : (List.range 1).map (fun k => (2:ℚ)^k) = [1] := by decide
      rw [hl]
      refine ⟨?_, by simp⟩
      simp [retryRun, retryLoop, he0, hsucc]
    · obtain ⟨e0, he0⟩ := hfail 0 (by norm_num)
      obtain ⟨e1, he1⟩ := hfail 1 (by norm_num)
      have hl : (List.range 2).map (fun k => (2:ℚ)^k) = [1, 2] := by decide
      rw [hl]
      refine ⟨?_, by norm_num [List.chain'_cons, List.chain'_singleton]⟩
      simp [retryRun, retryLoop, he0, he1, hsucc]
  · intro α op e0 e1 e2 h0 h1 h2
    simp [retryRun, retryLoop, h0, h1, h2]

/-- Witness for C4 at a concrete operation failing once then succeeding. -/
theorem c4_witness :
    retryRun (fun i => if i = 0 then (Except.error "boom" : Except String ℕ)
      else .ok 42) = (.ok 42, 2, [1]) := by
  have h := (c4_retry_backoff.1 ℕ
    (fun i => if i = 0 then (Except.error "boom" : Except String ℕ) else .ok 42)
    1 42 (by norm_num) (fun k hk => ⟨"boom", by interval_cases k <;> rfl⟩) rfl).1
  simpa using h

/-- Claim C2: for a BUY trade with entry 100, ATR 10, break-even multiplier
0.5 and trailing multiplier 1.0, the mark-price sequence [100, 104, 106, 112]
produces: no order action at 100 and 104; at 106 exactly one cancellation of
the initial stop and one STOP_MARKET order at stopPrice 100; at 112 exactly
one cancellation of the break-even stop and one TRAILING_STOP_MARKET order
with activationPrice 110; then the task terminates. -/
theorem c2_monitor_scenario :
    monitorRun defaultConfig mgwBenign 100 10 7 "BUY"
      [.ok 100, .ok 104, .ok 106, .ok 112] =
    ([.poll 100, .poll 104, .poll 106, .cancelOrder 7,
      .placeStop "SELL" 100 500, .poll 112, .cancelOrder 500,
      .placeTrailing "SELL" 110 (1/2)], true) := by
  norm_num [monitorRun, monitorLoop, mgwBenign, defaultConfig,
    BREAK_EVEN_ACTIVATION_MULTIPLIER, TRAILING_ACTIVATION_MULTIPLIER,
    TRAILING_CALLBACK]

/-- Claim C3 counterexample: from ARMED, a single poll at 110 (past the
trailing threshold) does NOT place a trailing stop; it performs the
break-even replacement instead and the task keeps running. -/
theorem c3_counterexample :
    monitorRun defaultConfig mgwBenign 100 10 7 "BUY" [.ok 110] =
      ([.poll 110, .cancelOrder 7, .placeStop "SELL" 100 500], false) ∧
    (monitorRun defaultConfig mgwBenign 100 10 7 "BUY" [.ok 110]).1.all
      (fun a => !a.isTrailingPlacement) = true := by
  refine ⟨?_, ?_⟩ <;>
    norm_num [monitorRun, monitorLoop, mgwBenign, defaultConfig,
      MonAction.isTrailingPlacement, BREAK_EVEN_ACTIVATION_MULTIPLIER,
      TRAILING_ACTIVATION_MULTIPLIER, TRAILING_CALLBACK]

/-- Claim C3 amended: for every trade (any configuration with break-even
multiplier at most the trailing multiplier, any entry price, non-negative
ATR, stop-order id and succeeding cancel/create calls, both directions),
a single poll from ARMED favorably past the trailing threshold (hence also
past the break-even threshold) performs the break-even replacement on that
poll — no trailing stop is placed and the task keeps running — and the
switch to the trailing stop happens only on the next poll still past the
trailing threshold. -/
theorem c3_breakeven_precedes_trailing (cfg : Config) (gw : MonGateway)
    (entry atr mark mark' : ℚ) (slId newId tid : ℕ)
    (hmult : cfg.beActMult ≤ cfg.trailActMult) (hatr : 0 ≤ atr)
    (hc0 : gw.cancel 0 = .ok ()) (hn0 : gw.create 0 = .ok newId)
    (hc1 : gw.cancel 1 = .ok ()) (hn1 : gw.create 1 = .ok tid) :
    (entry + atr * cfg.trailActMult ≤ mark →
      monitorRun cfg gw entry atr slId "BUY" [.ok mark] =
        ([.poll mark, .cancelOrder slId, .placeStop "SELL" entry newId], false)) ∧
    (entry + atr * cfg.trailActMult ≤ mark →
      entry + atr * cfg.trailActMult ≤ mark' →
      monitorRun cfg gw entry atr slId "BUY" [.ok mark, .ok mark'] =
        ([.poll mark, .cancelOrder slId, .placeStop "SELL" entry newId,
          .poll mark', .cancelOrder newId,
          .placeTrailing "SELL" (entry + atr * cfg.trailActMult) cfg.trailCallback],
         true)) ∧
    (mark ≤ entry - atr * cfg.trailActMult →
      monitorRun cfg gw entry atr slId "SELL" [.ok mark] =
        ([.poll mark, .cancelOrder slId, .placeStop "BUY" entry newId], false)) ∧
    (mark ≤ entry - atr * cfg.trailActMult →
      mark' ≤ entry - atr * cfg.trailActMult →
      monitorRun cfg gw entry atr slId "SELL" [.ok mark, .ok mark'] =
        ([.poll mark, .cancelOrder slId, .placeStop "BUY" entry newId,
          .poll mark', .cancelOrder newId,
          .placeTrailing "BUY" (entry - atr * cfg.trailActMult) cfg.trailCallback],
         true)) := by
  have hmm : atr * cfg.beActMult ≤ atr * cfg.trailActMult :=
    mul_le_mul_of_nonneg_left hmult hatr
  refine ⟨?_, ?_, ?_, ?_⟩
  · intro hm
    have hbe : entry + atr * cfg.beActMult ≤ mark := by linarith
    simp [monitorRun, monitorLoop, hc0, hn0, hbe, hm]
  · intro hm hm'
    have hbe : entry + atr * cfg.beActMult ≤ mark := by linarith
    simp [monitorRun, monitorLoop, hc0, hn0, hc1, hn1, hbe, hm, hm']
  · intro hm
    have hbe : mark ≤ entry - atr * cfg.beActMult := by linarith
    simp [monitorRun, monitorLoop, hc0, hn0, hbe, hm]
  · intro hm hm'
    have hbe : mark ≤ entry - atr * cfg.beActMult := by linarith
    simp [monitorRun, monitorLoop, hc0, hn0, hc1, hn1, hbe, hm, hm']

/-- Witness for C3's amended theorem at the shipped configuration, entry 100,
ATR 10, mark prices 120 then 115. -/
theorem c3_witness :
    monitorRun defaultConfig mgwBenign 100 10 7 "BUY" [.ok 120, .ok 115] =
      ([.poll 120, .cancelOrder 7, .placeStop "SELL" 100 500,
        .poll 115, .cancelOrder 500, .placeTrailing "SELL" 110 (1/2)], true) := by
  have h := (c3_breakeven_precedes_trailing defaultConfig mgwBenign 100 10 120 115
    7 500 501
    (by norm_num [defaultConfig, BREAK_EVEN_ACTIVATION_MULTIPLIER,
      TRAILING_ACTIVATION_MULTIPLIER])
    (by norm_num) rfl rfl rfl rfl).2.1
    (by norm_num [defaultConfig, TRAILING_ACTIVATION_MULTIPLIER])
    (by norm_num [defaultConfig, TRAILING_ACTIVATION_MULTIPLIER])
  norm_num [defaultConfig, TRAILING_ACTIVATION_MULTIPLIER, TRAILING_CALLBACK] at h
  exact h

/-- Claim C5: with TP order 42 registered for BTCUSDT, a TRAILING_STOP_MARKET
FILLED order-trade-update causes exactly one cancel call for id 42 and
removes the registry entry (also when the cancel call raises); a second
identical event is a no-op; events with any other type, status or an
unregistered symbol cause no cancel call and no registry change. -/
theorem c5_reconciler :
    (∀ b : Bool, handleEvent (registerTpOrder [] "BTCUSDT" 42) evTrailingFill b
      = ([], [("BTCUSDT", 42)])) ∧
    (∀ b : Bool, handleEvent [] evTrailingFill b = ([], [])) ∧
    (∀ (reg : List (String × ℕ)) (ev : WSEvent) (b : Bool),
      ev.eventType ≠ "ORDER_TRADE_UPDATE" ∨
        ¬(ev.orderType = "TRAILING_STOP_MARKET" ∧ ev.status = "FILLED") ∨
        reg.lookup ev.symbol = none →
      handleEvent reg ev b = (reg, [])) := by
  refine ⟨fun b => rfl, fun b => rfl, ?_⟩
  intro reg ev b h
  by_cases h1 : ev.eventType ≠ "ORDER_TRADE_UPDATE"
  · simp [handleEvent, h1]
  · rcases h with h | h | h
    · exact absurd h h1
    · simp [handleEvent, h1, h]
    · by_cases h2 : ev.orderType = "TRAILING_STOP_MARKET" ∧ ev.status = "FILLED"
      · simp [handleEvent, h1, h2, h]
      · simp [handleEvent, h1, h2]

/-- Witness for C5 at concrete events: a non-matching event type is a no-op,
and the registered-fill scenario of the claim. -/
theorem c5_witness :
    handleEvent [("ETHUSDT", 9)]
      ⟨"ACCOUNT_UPDATE", "ETHUSDT", "TRAILING_STOP_MARKET", "FILLED"⟩ true
      = ([("ETHUSDT", 9)], []) ∧
    handleEvent (registerTpOrder [] "BTCUSDT" 42) evTrailingFill true
      = ([], [("BTCUSDT", 42)]) :=
  ⟨c5_reconciler.2.2 _ _ _ (Or.inl (by decide)), c5_reconciler.1 true⟩

/-- Claim C6: for a BUY trade that proceeds to submit orders, the submitted
stop-loss trigger is strictly below the rounded entry price and the
take-profit trigger strictly above, after step rounding and the 0.1% buffer;
for SELL the symmetric strict inequalities hold. -/
theorem c6_protective_prices_strict (lev : ℕ) (symbol : String) (price atr : ℚ) :
    (∀ P : TradeParams,
      validateParams defaultConfig lev symbol "BUY" price atr = some P →
      P.sl < P.price ∧ P.price < P.tp ∧
      (slReq symbol (oppositeSide "BUY") P).stopPrice = some P.sl ∧
      (tpReq defaultConfig symbol (oppositeSide "BUY") P).stopPrice = some P.tp) ∧
    (∀ P : TradeParams,
      validateParams defaultConfig lev symbol "SELL" price atr = some P →
      P.price < P.sl ∧ P.tp < P.price ∧
      (slReq symbol (oppositeSide "SELL") P).stopPrice = some P.sl ∧
      (tpReq defaultConfig symbol (oppositeSide "SELL") P).stopPrice = some P.tp) := by
  constructor
  · intro P h
    simp only [validateParams, String.reduceEq, if_false, if_true, reduceIte] at h
    split at h
    · exact absurd h (by simp)
    · split at h
      · exact absurd h (by simp)
      · rename_i hguard
        push_neg at hguard
        rw [Option.some_inj] at h
        subst h
        exact ⟨hguard.1, hguard.2, rfl, rfl⟩
  · intro P h
    simp only [validateParams, String.reduceEq, if_false, if_true, reduceIte] at h
    split at h
    · exact absurd h (by simp)
    · split at h
      · exact absurd h (by simp)
      · rename_i hguard
        push_neg at hguard
        rw [Option.some_inj] at h
        subst h
        exact ⟨hguard.1, hguard.2, rfl, rfl⟩

/-- Evaluation of the pre-try computation at the concrete inputs used by
several witnesses: BTCUSDT BUY at price 65000 with ATR 100. -/
theorem val_btc_65000 :
    validateParams defaultConfig 5 "BTCUSDT" "BUY" 65000 100 =
      some ⟨3/200, 65000, 64900, 65150⟩ := by
  norm_num [validateParams, defaultConfig, lookupPrec, SYMBOL_PRECISION,
    MARGIN_PER_TRADE, MIN_NOTIONAL, SL_MULTIPLIER, TP_MULTIPLIER,
    roundStepSize, ratTrunc, List.lookup, min_def, max_def]

/-- Claim C1 counterexample: for a symbol absent from the leverage
configuration, `place_trade` propagates a raw `KeyError` (the lookup happens
before the `try` block), so the claim that no exception ever propagates is
false. -/
theorem c1_counterexample :
    placeTrade defaultConfig gwBenign true true "FOOUSDT" "BUY" 100 10 =
      ⟨.error "KeyError", [], [], [], false, false⟩ := by
  simp [placeTrade, defaultConfig, LEVERAGE_MAP, List.lookup]

/-- Claim C1 amended: for a symbol present in the leverage configuration and
a non-zero price, every exception raised inside the try block (position query
through order submission, including a failing success-path trade-log write)
is caught and converted to a `false` return value, and — when a sheet is
attached — recorded to the trade log with an `ERROR:` status, provided only
that the error handler's own trade-log write does not raise; exception-free
runs return their boolean normally.  (A symbol absent from the leverage
configuration raises a raw KeyError — the counterexample — a zero price a raw
ZeroDivisionError, and a raising error-path log write propagates.) -/
theorem c1_exception_containment (cfg : Config) (gw : Gateway)
    (hasSheet hasWs : Bool) (symbol side : String) (price atr : ℚ)
    (lev : ℕ) (P : TradeParams)
    (hlev : cfg.leverageMap.lookup symbol = some lev)
    (hprice : price ≠ 0)
    (hval : validateParams cfg lev symbol side price atr = some P) :
    (∀ (b : Bool) (s' : PState),
      tryBody cfg gw hasSheet hasWs symbol side lev P initPState = (.ok b, s') →
      placeTrade cfg gw hasSheet hasWs symbol side price atr =
        ⟨.ok b, s'.calls, s'.logs, s'.sleeps, s'.monitorStarted, s'.registered⟩) ∧
    (∀ (e : String) (s' : PState),
      tryBody cfg gw hasSheet hasWs symbol side lev P initPState = (.error e, s') →
      gw.logTrade s'.logIdx = .ok () →
      placeTrade cfg gw hasSheet hasWs symbol side price atr =
        ⟨.ok false, s'.calls,
         if hasSheet then
           s'.logs ++ [⟨symbol, side, P.qty, P.price, P.tp, P.sl, "ERROR: " ++ e⟩]
         else s'.logs,
         s'.sleeps, s'.monitorStarted, s'.registered⟩) := by
  constructor
  · intro b s' htry
    simp only [placeTrade, hlev]
    rw [if_neg hprice, hval]
    simp [PM.tryCatchP, htry]
  · intro e s' htry hlog
    simp only [placeTrade, hlev]
    rw [if_neg hprice, hval]
    cases hasSheet with
    | false => simp [PM.tryCatchP, htry, handleFail, PM.bind, PM.pure]
    | true =>
      simp [PM.tryCatchP, htry, handleFail, PM.bind, PM.pure, PM.attemptLog, hlog]

/-- Witness for C1's amended theorem: the success-path trade-log write raises
inside the try block, the exception is caught, logged with an ERROR status by
the handler's (succeeding) second write, and converted to a false return. -/
theorem c1_witness :
    placeTrade defaultConfig gwLogFail true true "BTCUSDT" "BUY" 65000 100 =
      ⟨.ok false,
       [GCall.positionInfo "BTCUSDT", GCall.changeLeverage "BTCUSDT" 5,
        GCall.createOrder (entryReq defaultConfig "BTCUSDT" "BUY" ⟨3/200, 65000, 64900, 65150⟩),
        GCall.getOrder "BTCUSDT" 9,
        GCall.createOrder (tpReq defaultConfig "BTCUSDT" (oppositeSide "BUY") ⟨3/200, 65000, 64900, 65150⟩),
        GCall.createOrder (slReq "BTCUSDT" (oppositeSide "BUY") ⟨3/200, 65000, 64900, 65150⟩)],
       [⟨"BTCUSDT", "BUY", 3/200, 65000, 65150, 64900, "ERROR: logfail"⟩],
       [], true, true⟩ := by
  have htry : tryBody defaultConfig gwLogFail true true "BTCUSDT" "BUY" 5
      ⟨3/200, 65000, 64900, 65150⟩ initPState =
      (.error "logfail",
       ⟨[GCall.positionInfo "BTCUSDT", GCall.changeLeverage "BTCUSDT" 5,
         GCall.createOrder (entryReq defaultConfig "BTCUSDT" "BUY" ⟨3/200, 65000, 64900, 65150⟩),
         GCall.getOrder "BTCUSDT" 9,
         GCall.createOrder (tpReq defaultConfig "BTCUSDT" (oppositeSide "BUY") ⟨3/200, 65000, 64900, 65150⟩),
         GCall.createOrder (slReq "BTCUSDT" (oppositeSide "BUY") ⟨3/200, 65000, 64900, 65150⟩)],
        [], [], 1, true, true⟩) := by
    simp [tryBody, pollFill, PM.bind, PM.pure, PM.gwCall, PM.sleep,
      PM.registerStep, PM.monitorStep, PM.attemptLog, gwLogFail, retryNet,
      retryRun, retryLoop, hasOpenPosition, initPState, defaultConfig,
      USE_TRAILING_STOP, USE_MARKET_ENTRY, USE_MARKET_TP]
  have h := (c1_exception_containment defaultConfig gwLogFail true true
    "BTCUSDT" "BUY" 65000 100 5 ⟨3/200, 65000, 64900, 65150⟩
    (by simp [defaultConfig, LEVERAGE_MAP, List.lookup]) (by norm_num)
    val_btc_65000).2 "logfail" _ htry rfl
  simpa using h

/-- Claim C8: when the computed quantity times price is below the minimum
notional, `place_trade` returns false and makes no Gateway call of any
kind. -/
theorem c8_min_notional_guard (cfg : Config) (gw : Gateway)
    (hasSheet hasWs : Bool) (symbol side : String) (price atr : ℚ) (lev : ℕ)
    (hlev : cfg.leverageMap.lookup symbol = some lev)
    (hprice : price ≠ 0)
    (hnot : cfg.marginPerTrade * (lev:ℚ) / price * price < cfg.minNotional) :
    placeTrade cfg gw hasSheet hasWs symbol side price atr =
      ⟨.ok false, [], [], [], false, false⟩ := by
  simp only [placeTrade, hlev]
  rw [if_neg hprice]
  have hval : validateParams cfg lev symbol side price atr = none := by
    simp only [validateParams]
    rw [if_pos hnot]
  rw [hval]

/-- Witness for C8 at a concrete below-minimum trade. -/
theorem c8_witness :
    placeTrade cfgTinyMargin gwBenign true true "BTCUSDT" "BUY" 100 10 =
      ⟨.ok false, [], [], [], false, false⟩ :=
  c8_min_notional_guard cfgTinyMargin gwBenign true true "BTCUSDT" "BUY" 100 10 5
    (by simp [cfgTinyMargin, defaultConfig, LEVERAGE_MAP, List.lookup])
    (by norm_num)
    (by norm_num [cfgTinyMargin, defaultConfig, MARGIN_PER_TRADE, MIN_NOTIONAL])

/-- Claim C9: a position query reporting any non-zero position amount makes
`place_trade` return false after only the position query: no leverage change
and no order creation. -/
theorem c9_open_position_guard (cfg : Config) (gw : Gateway)
    (hasSheet hasWs : Bool) (symbol side : String) (price atr : ℚ)
    (lev : ℕ) (P : TradeParams) (amts : List ℚ)
    (hlev : cfg.leverageMap.lookup symbol = some lev)
    (hprice : price ≠ 0)
    (hval : validateParams cfg lev symbol side price atr = some P)
    (hpos : gw.positionInfo = .ok (some amts))
    (hopen : ∃ a ∈ amts, a ≠ 0) :
    placeTrade cfg gw hasSheet hasWs symbol side price atr =
      ⟨.ok false, [GCall.positionInfo symbol], [], [], false, false⟩ := by
  simp only [placeTrade, hlev]
  rw [if_neg hprice, hval]
  have hop : hasOpenPosition (some amts) = true := by
    obtain ⟨a, ha, hane⟩ := hopen
    simp only [hasOpenPosition, List.any_eq_true, bne_iff_ne]
    exact ⟨a, ha, hane⟩
  simp [PM.tryCatchP, tryBody, PM.bind, PM.gwCall, PM.pure, hpos, hop, initPState]

/-- Witness for C9 at a concrete open position. -/
theorem c9_witness :
    placeTrade defaultConfig gwOpenPos true true "BTCUSDT" "BUY" 65000 100 =
      ⟨.ok false, [GCall.positionInfo "BTCUSDT"], [], [], false, false⟩ :=
  c9_open_position_guard defaultConfig gwOpenPos true true "BTCUSDT" "BUY" 65000 100 5
    ⟨3/200, 65000, 64900, 65150⟩ [3]
    (by simp [defaultConfig, LEVERAGE_MAP, List.lookup]) (by norm_num)
    val_btc_65000 rfl ⟨3, by norm_num⟩

/-- Witness for C6: the inequalities hold at the concrete BTCUSDT BUY trade. -/
theorem c6_witness :
    (64900:ℚ) < 65000 ∧ (65000:ℚ) < 65150 ∧
    (slReq "BTCUSDT" (oppositeSide "BUY") ⟨3/200, 65000, 64900, 65150⟩).stopPrice
      = some 64900 ∧
    (tpReq defaultConfig "BTCUSDT" (oppositeSide "BUY") ⟨3/200, 65000, 64900, 65150⟩).stopPrice
      = some 65150 :=
  (c6_protective_prices_strict 5 "BTCUSDT" 65000 100).1
    ⟨3/200, 65000, 64900, 65150⟩ val_btc_65000

/-- Claim C7: when the entry order is submitted but no status poll reports a
filled state, `place_trade` polls exactly 5 times with 1-second spacing,
returns false, and submits neither a take-profit nor a stop-loss order and
no cancel call (the full call trace is the position query, the leverage
change, the entry order and the five polls). -/
theorem c7_unfilled_entry_aborts (cfg : Config) (gw : Gateway)
    (hasSheet hasWs : Bool) (symbol side : String) (price atr : ℚ)
    (lev : ℕ) (P : TradeParams) (eid : ℕ) (posv : Option (List ℚ))
    (hlev : cfg.leverageMap.lookup symbol = some lev)
    (hprice : price ≠ 0)
    (hval : validateParams cfg lev symbol side price atr = some P)
    (hpos : gw.positionInfo = .ok posv)
    (hopen : hasOpenPosition posv = false)
    (hchg : retryNet gw.changeLeverage = .ok ())
    (hentry : retryNet gw.createEntry = .ok eid)
    (hpoll : ∀ i, i < 5 → ∃ st, gw.getOrder i = .ok (some st) ∧ st ≠ "FILLED") :
    placeTrade cfg gw hasSheet hasWs symbol side price atr =
      ⟨.ok false,
       [GCall.positionInfo symbol, GCall.changeLeverage symbol lev,
        GCall.createOrder (entryReq cfg symbol side P),
        GCall.getOrder symbol eid, GCall.getOrder symbol eid,
        GCall.getOrder symbol eid, GCall.getOrder symbol eid,
        GCall.getOrder symbol eid],
       [], [1, 1, 1, 1, 1], false, false⟩ := by
  obtain ⟨st0, h0, hn0⟩ := hpoll 0 (by norm_num)
  obtain ⟨st1, h1, hn1⟩ := hpoll 1 (by norm_num)
  obtain ⟨st2, h2, hn2⟩ := hpoll 2 (by norm_num)
  obtain ⟨st3, h3, hn3⟩ := hpoll 3 (by norm_num)
  obtain ⟨st4, h4, hn4⟩ := hpoll 4 (by norm_num)
  simp only [placeTrade, hlev]
  rw [if_neg hprice, hval]
  simp [PM.tryCatchP, tryBody, pollFill, PM.bind, PM.gwCall, PM.sleep, PM.pure,
    hpos, hopen, hchg, hentry, h0, h1, h2, h3, h4, hn0, hn1, hn2, hn3, hn4,
    initPState]

/-- Witness for C7 at a concrete never-filled entry order. -/
theorem c7_witness :
    placeTrade defaultConfig gwUnfilled true true "BTCUSDT" "BUY" 65000 100 =
      ⟨.ok false,
       [GCall.positionInfo "BTCUSDT", GCall.changeLeverage "BTCUSDT" 5,
        GCall.createOrder (entryReq defaultConfig "BTCUSDT" "BUY" ⟨3/200, 65000, 64900, 65150⟩),
        GCall.getOrder "BTCUSDT" 9, GCall.getOrder "BTCUSDT" 9,
        GCall.getOrder "BTCUSDT" 9, GCall.getOrder "BTCUSDT" 9,
        GCall.getOrder "BTCUSDT" 9],
       [], [1, 1, 1, 1, 1], false, false⟩ :=
  c7_unfilled_entry_aborts defaultConfig gwUnfilled true true "BTCUSDT" "BUY" 65000 100
    5 ⟨3/200, 65000, 64900, 65150⟩ 9 (some [])
    (by simp [defaultConfig, LEVERAGE_MAP, List.lookup]) (by norm_num)
    val_btc_65000 rfl rfl rfl rfl
    (fun i _ => ⟨"NEW", rfl, by simp⟩)

/-- Claim C10: the minimum-notional guard is evaluated on the unrounded
quantity, so the tested value equals marginPerTrade times leverage whenever
the price is non-zero; consequently at a sufficiently high price (BTCUSDT at
2000000 with quantity step 0.001) the guard passes yet the step-rounded
quantity actually submitted in the entry order is 0, whose notional 0 is
below the minimum threshold. -/
theorem c10_notional_check_prerounding :
    (∀ (cfg : Config) (lev : ℕ) (price : ℚ), price ≠ 0 →
      cfg.marginPerTrade * (lev:ℚ) / price * price = cfg.marginPerTrade * (lev:ℚ)) ∧
    validateParams defaultConfig 5 "BTCUSDT" "BUY" 2000000 100 =
      some ⟨0, 2000000, 1998000, 2002000⟩ ∧
    (entryReq defaultConfig "BTCUSDT" "BUY" ⟨0, 2000000, 1998000, 2002000⟩).quantity
      = some 0 ∧
    (0:ℚ) * 2000000 < defaultConfig.minNotional := by
  refine ⟨fun cfg lev price hp => div_mul_cancel₀ _ hp, ?_, rfl,
    by norm_num [defaultConfig, MIN_NOTIONAL]⟩
  norm_num [validateParams, defaultConfig, lookupPrec, SYMBOL_PRECISION,
    MARGIN_PER_TRADE, MIN_NOTIONAL, SL_MULTIPLIER, TP_MULTIPLIER,
    roundStepSize, ratTrunc, List.lookup, min_def, max_def]

/-- Witness for C10's universally quantified part at a concrete price. -/
theorem c10_witness :
    (2:ℚ) ≠ 0 ∧
    defaultConfig.marginPerTrade * ((5:ℕ):ℚ) / 2 * 2
      = defaultConfig.marginPerTrade * ((5:ℕ):ℚ) :=
  ⟨by norm_num, c10_notional_check_prerounding.1 defaultConfig 5 2 (by norm_num)⟩
